import Mathlib

/-!
Verification of the Spatial Zone Query Service
(`src/services/GeohashingService.ts` of FinaritrAndrianiaina/geohashingapi).

The service is a stateless layer over the external H3 indexing library
(`h3-js`). The library itself is out of scope of the specification and is
modelled abstractly as a structure of functions (`H3Lib`); every theorem
about a service operation is quantified over an arbitrary library, so it
captures exactly the composition logic the service adds on top.

JavaScript numbers are modelled by `JSNum`: either a rational value or
`nan`. `nan` stands for any JS value whose numeric coercion is `NaN`
(an unparsable string, `undefined`, an object); IEEE comparisons with
`NaN` are always false, which `JSNum.lt` reproduces. Where a claim only
concerns genuinely numeric inputs, plain `ℚ` is used.
-/

/-- A JavaScript number: a rational, or `NaN` (the coercion of any
non-numeric value). -/
inductive JSNum where
  | nan : JSNum
  | num : ℚ → JSNum
  deriving DecidableEq, Repr

namespace JSNum

/-- IEEE `<` on JS numbers: any comparison involving `NaN` is false. -/
def lt : JSNum → JSNum → Bool
  | num a, num b => a < b
  | _, _ => false

/-- IEEE `>` on JS numbers: any comparison involving `NaN` is false. -/
def gt : JSNum → JSNum → Bool
  | num a, num b => a > b
  | _, _ => false

/-- `Number.isInteger`: false on `NaN`, otherwise the integrality test. -/
def isInteger : JSNum → Bool
  | nan => false
  | num q => q.den == 1

end JSNum

/-- `ValidationResult` from `src/types`: `{ isValid: boolean; error?: string }`. -/
structure ValidationResult where
  isValid : Bool
  error : Option String := none
  deriving DecidableEq, Repr

/-- Error message of `validateCoordinates`. -/
def coordinatesErrorMsg : String :=
  "Latitude must be between -90 and 90, longitude between -180 and 180"

/-- `GeohashingService.validateCoordinates(lat, lng)`:
`if (lat < -90 || lat > 90 || lng < -180 || lng > 180) return invalid; return valid`. -/
def validateCoordinates (lat lng : JSNum) : ValidationResult :=
  if lat.lt (.num (-90)) || lat.gt (.num 90) ||
     lng.lt (.num (-180)) || lng.gt (.num 180) then
    { isValid := false, error := some coordinatesErrorMsg }
  else
    { isValid := true }

/-- `GeohashingService.validateResolution(resolution)`:
`if (resolution < 0 || resolution > 15 || !Number.isInteger(resolution)) return invalid`. -/
def validateResolution (resolution : JSNum) : ValidationResult :=
  if resolution.lt (.num 0) || resolution.gt (.num 15) || !resolution.isInteger then
    { isValid := false, error := some "Resolution must be an integer between 0 and 15" }
  else
    { isValid := true }

/-- `GeohashingService.validateKValue(k)`:
`if (k < 1 || k > 10 || !Number.isInteger(k)) return invalid`. -/
def validateKValue (k : JSNum) : ValidationResult :=
  if k.lt (.num 1) || k.gt (.num 10) || !k.isInteger then
    { isValid := false, error := some "k must be an integer between 1 and 10" }
  else
    { isValid := true }

/-- One vertex of the polygon argument as JS sees it: either not an array
at all, or an array of numerically-coerced elements. -/
inductive JSCoord where
  | nonArr : JSCoord
  | arr : List JSNum → JSCoord
  deriving DecidableEq, Repr

/-- The polygon argument as JS sees it: either not an array, or an array
of vertices. -/
inductive JSPolyArg where
  | nonArr : JSPolyArg
  | arr : List JSCoord → JSPolyArg
  deriving DecidableEq, Repr

/-- Error message for a polygon that is not an array of ≥ 3 vertices. -/
def polygonSizeErrorMsg : String :=
  "Polygon must be an array of at least 3 [lat, lng] coordinates"

/-- Error message for a vertex that is not a two-element array. -/
def coordShapeErrorMsg : String :=
  "Each polygon coordinate must be a [lat, lng] array"

/-- Body of the `for (const coord of polygon)` loop of `validatePolygon`
for one vertex: the `Array.isArray(coord) && coord.length === 2` shape
check, then `validateCoordinates(lat, lng)` on the destructured pair. -/
def checkVertex : JSCoord → ValidationResult
  | .arr [la, ln] => validateCoordinates la ln
  | _ => { isValid := false, error := some coordShapeErrorMsg }

/-- The `for (const coord of polygon)` loop of `validatePolygon`: returns
the result of the first failing vertex, valid if none fails. -/
def checkVertices : List JSCoord → ValidationResult
  | [] => { isValid := true }
  | c :: rest =>
    let v := checkVertex c
    if v.isValid then checkVertices rest else v

/-- `GeohashingService.validatePolygon(polygon)`:
`if (!Array.isArray(polygon) || polygon.length < 3) return invalid;`
then the per-vertex loop. -/
def validatePolygon : JSPolyArg → ValidationResult
  | .nonArr => { isValid := false, error := some polygonSizeErrorMsg }
  | .arr coords =>
    if coords.length < 3 then
      { isValid := false, error := some polygonSizeErrorMsg }
    else
      checkVertices coords

/-- `Coordinates` from `src/types`: `{ lat: number; lng: number }`. -/
structure Coordinates where
  lat : ℚ
  lng : ℚ
  deriving DecidableEq, Repr

/-- `BoundingBox` from `src/types`. -/
structure BoundingBox where
  minLat : ℚ
  minLng : ℚ
  maxLat : ℚ
  maxLng : ℚ
  deriving DecidableEq, Repr

/-- `NeighborInfo` from `src/types`: `{ hash: string; center: Coordinates }`. -/
structure NeighborInfo where
  hash : String
  center : Coordinates
  deriving DecidableEq, Repr

/-- `NeighborsResponse` from `src/types`. -/
structure NeighborsResponse where
  hash : String
  k : ℤ
  neighbors : List NeighborInfo
  count : ℕ
  resolution : ℤ
  deriving DecidableEq, Repr

/-- `DetailedZoneInfo` from `src/types`. -/
structure DetailedZoneInfo where
  hash : String
  resolution : ℤ
  center : Coordinates
  boundary : List Coordinates
  neighbors : List String
  parent : Option String
  children : List String
  childrenCount : ℕ
  deriving DecidableEq, Repr

/-- `ZonesInAreaResponse` from `src/types`. -/
structure ZonesInAreaResponse where
  boundingBox : BoundingBox
  resolution : ℤ
  zones : List NeighborInfo
  count : ℕ
  deriving DecidableEq, Repr

/-- `ZonesInRadiusResponse` from `src/types`. -/
structure ZonesInRadiusResponse where
  center : Coordinates
  radius : ℚ
  resolution : ℤ
  estimatedK : ℤ
  zones : List NeighborInfo
  count : ℕ
  note : String
  deriving DecidableEq, Repr

/-- `ZonesInPolygonResponse` from `src/types`. -/
structure ZonesInPolygonResponse where
  polygon : List (List ℚ)
  resolution : ℤ
  zones : List NeighborInfo
  count : ℕ
  deriving DecidableEq, Repr

/-- The external H3 indexing library (`h3-js`), abstract: the service
composes these primitives but never looks inside them, so every theorem
below holds for an arbitrary `H3Lib`. -/
structure H3Lib where
  latLngToCell : ℚ → ℚ → ℤ → String
  cellToLatLng : String → ℚ × ℚ
  cellToBoundary : String → List (ℚ × ℚ)
  gridDisk : String → ℤ → List String
  polygonToCells : List (List ℚ) → ℤ → List String
  cellToChildren : String → ℤ → List String
  cellToParent : String → ℤ → String
  getResolution : String → ℤ
  isValidCell : String → Bool

/-- `GeohashingService.validateCellHash(hash)`, over an abstract library:
`if (!isValidCell(hash)) return invalid; return valid`. -/
def validateCellHash (lib : H3Lib) (hash : String) : ValidationResult :=
  if !lib.isValidCell hash then
    { isValid := false, error := some "The provided hash is not a valid H3 cell" }
  else
    { isValid := true }

/-- `GeohashingService.formatCenter`. -/
def formatCenter (center : ℚ × ℚ) : Coordinates :=
  { lat := center.1, lng := center.2 }

/-- `GeohashingService.formatBoundary`. -/
def formatBoundary (boundary : List (ℚ × ℚ)) : List Coordinates :=
  boundary.map fun coord => { lat := coord.1, lng := coord.2 }

/-- `GeohashingService.formatNeighborInfo`. -/
def formatNeighborInfo (lib : H3Lib) (hash : String) : NeighborInfo :=
  { hash := hash, center := formatCenter (lib.cellToLatLng hash) }

/-- `GeohashingService.getNeighbors(hash, k = 1)`. -/
def getNeighbors (lib : H3Lib) (hash : String) (k : ℤ) : NeighborsResponse :=
  let neighbors := lib.gridDisk hash k
  { hash := hash
    k := k
    neighbors := neighbors.map fun neighborHash => formatNeighborInfo lib neighborHash
    count := neighbors.length
    resolution := lib.getResolution hash }

/-- `GeohashingService.getDetailedZoneInfo(hash)`: center, boundary,
self-filtered 1-ring, parent when `resolution > 0`, children when
`resolution < 15` (truncated to 10 in the response, full length in
`childrenCount`). -/
def getDetailedZoneInfo (lib : H3Lib) (hash : String) : DetailedZoneInfo :=
  let center := lib.cellToLatLng hash
  let boundary := lib.cellToBoundary hash
  let resolution := lib.getResolution hash
  let neighbors := (lib.gridDisk hash 1).filter fun h => h != hash
  let parent : Option String :=
    if resolution > 0 then some (lib.cellToParent hash (resolution - 1)) else none
  let children : List String :=
    if resolution < 15 then lib.cellToChildren hash (resolution + 1) else []
  { hash := hash
    resolution := resolution
    center := formatCenter center
    boundary := formatBoundary boundary
    neighbors := neighbors
    parent := parent
    children := children.take 10
    childrenCount := children.length }

/-- The five-vertex closed ring `getZonesInArea` builds from a bounding
box, in source order. -/
def boundingBoxRing (b : BoundingBox) : List (List ℚ) :=
  [[b.minLat, b.minLng],
   [b.minLat, b.maxLng],
   [b.maxLat, b.maxLng],
   [b.maxLat, b.minLng],
   [b.minLat, b.minLng]]

/-- `GeohashingService.getZonesInArea(boundingBox, resolution)`. -/
def getZonesInArea (lib : H3Lib) (boundingBox : BoundingBox) (resolution : ℤ) :
    ZonesInAreaResponse :=
  let polygon := boundingBoxRing boundingBox
  let zones := lib.polygonToCells polygon resolution
  { boundingBox := boundingBox
    resolution := resolution
    zones := zones.map fun hash => formatNeighborInfo lib hash
    count := zones.length }

/-- The fixed approximation note of `getZonesInRadius`. -/
def radiusApproximationNote : String :=
  "This is an approximation. For precise radius filtering, calculate actual distances from center."

/-- `GeohashingService.getZonesInRadius(center, radius, resolution)`:
`k = Math.max(1, Math.ceil(radius / 1000))`, traversal at
`Math.min(k, 10)`, raw `k` reported as `estimatedK`. -/
def getZonesInRadius (lib : H3Lib) (center : Coordinates) (radius : ℚ)
    (resolution : ℤ) : ZonesInRadiusResponse :=
  let centerHash := lib.latLngToCell center.lat center.lng resolution
  let k : ℤ := max 1 ⌈radius / 1000⌉
  let zones := lib.gridDisk centerHash (min k 10)
  { center := center
    radius := radius
    resolution := resolution
    estimatedK := k
    zones := zones.map fun hash => formatNeighborInfo lib hash
    count := zones.length
    note := radiusApproximationNote }

/-- `GeohashingService.getZonesInPolygon(polygon, resolution)`. -/
def getZonesInPolygon (lib : H3Lib) (polygon : List (List ℚ)) (resolution : ℤ) :
    ZonesInPolygonResponse :=
  let zones := lib.polygonToCells polygon resolution
  { polygon := polygon
    resolution := resolution
    zones := zones.map fun hash => formatNeighborInfo lib hash
    count := zones.length }

/-! ## Theorems -/

/-- Claim C1: the claim states that `validateCoordinates` rejects `NaN`
input as invalid. The code does the opposite: every range comparison
against `NaN` evaluates false, so the guard is not taken and the value
passes through as valid, in either argument position. -/
theorem validateCoordinates_accepts_nan :
    validateCoordinates JSNum.nan (JSNum.num 0) = { isValid := true, error := none } ∧
    validateCoordinates (JSNum.num 0) JSNum.nan = { isValid := true, error := none } ∧
    validateCoordinates JSNum.nan JSNum.nan = { isValid := true, error := none } := by
  refine ⟨rfl, rfl, rfl⟩

/-- Claim C2: `getZonesInRadius` estimates the ring count as
`k = max(1, ceil(radius / 1000))`, reports the raw `k` as `estimatedK`,
traverses the ring-disk at `min(k, 10)`, and attaches the fixed
approximation note; at `radius = 15000` it reports `estimatedK = 15`
while traversing at `k = 10`. -/
theorem getZonesInRadius_estimation_spec (lib : H3Lib) (center : Coordinates)
    (radius : ℚ) (resolution : ℤ) :
    (getZonesInRadius lib center radius resolution).estimatedK =
      max 1 ⌈radius / 1000⌉ ∧
    (getZonesInRadius lib center radius resolution).zones =
      (lib.gridDisk (lib.latLngToCell center.lat center.lng resolution)
        (min (max 1 ⌈radius / 1000⌉) 10)).map (formatNeighborInfo lib) ∧
    (getZonesInRadius lib center radius resolution).note =
      radiusApproximationNote ∧
    (getZonesInRadius lib center 15000 resolution).estimatedK = 15 ∧
    (getZonesInRadius lib center 15000 resolution).zones =
      (lib.gridDisk (lib.latLngToCell center.lat center.lng resolution) 10).map
        (formatNeighborInfo lib) := by
  have hceil : (⌈(15000 : ℚ) / 1000⌉ : ℤ) = 15 := by norm_num
  have hmax : max (1 : ℤ) 15 = 15 := by decide
  have hmin : min (15 : ℤ) 10 = 10 := by decide
  refine ⟨rfl, rfl, rfl, ?_, ?_⟩
  · show max 1 ⌈(15000 : ℚ) / 1000⌉ = 15
    rw [hceil, hmax]
  · show (lib.gridDisk _ (min (max 1 ⌈(15000 : ℚ) / 1000⌉) 10)).map _ = _
    rw [hceil, hmax, hmin]

/-- Claim C3: for every bounding box, degenerate or not, `getZonesInArea`
passes exactly the five-vertex closed ring
`[[minLat,minLng], [minLat,maxLng], [maxLat,maxLng], [maxLat,minLng],
[minLat,minLng]]` to the polygon-fill primitive; no non-degeneracy check
is performed. -/
theorem getZonesInArea_closed_ring_spec (lib : H3Lib) (b : BoundingBox)
    (resolution : ℤ) :
    (getZonesInArea lib b resolution).zones =
      (lib.polygonToCells
        [[b.minLat, b.minLng], [b.minLat, b.maxLng], [b.maxLat, b.maxLng],
         [b.maxLat, b.minLng], [b.minLat, b.minLng]] resolution).map
        (formatNeighborInfo lib) := by
  rfl

/-- Claim C7: `getZonesInPolygon` passes the caller-supplied vertex list
to the polygon-fill primitive exactly as given and echoes it unchanged in
the response, while the bounding-box path builds its own five-vertex ring
whose last vertex repeats the first. -/
theorem getZonesInPolygon_passthrough_spec (lib : H3Lib)
    (polygon : List (List ℚ)) (resolution : ℤ) (b : BoundingBox) :
    (getZonesInPolygon lib polygon resolution).polygon = polygon ∧
    (getZonesInPolygon lib polygon resolution).zones =
      (lib.polygonToCells polygon resolution).map (formatNeighborInfo lib) ∧
    (getZonesInArea lib b resolution).zones =
      (lib.polygonToCells (boundingBoxRing b) resolution).map
        (formatNeighborInfo lib) ∧
    (boundingBoxRing b).length = 5 ∧
    (boundingBoxRing b).head? = some [b.minLat, b.minLng] ∧
    (boundingBoxRing b).getLast? = some [b.minLat, b.minLng] := by
  refine ⟨rfl, rfl, rfl, rfl, rfl, rfl⟩

/-- Claim C10: in every zone-list-bearing response the `count` field
equals the length of the accompanying list, for `getNeighbors`,
`getZonesInArea`, `getZonesInRadius` and `getZonesInPolygon`. -/
theorem responses_count_eq_length (lib : H3Lib) (hash : String) (k : ℤ)
    (b : BoundingBox) (center : Coordinates) (radius : ℚ)
    (poly : List (List ℚ)) (resolution : ℤ) :
    (getNeighbors lib hash k).count = (getNeighbors lib hash k).neighbors.length ∧
    (getZonesInArea lib b resolution).count =
      (getZonesInArea lib b resolution).zones.length ∧
    (getZonesInRadius lib center radius resolution).count =
      (getZonesInRadius lib center radius resolution).zones.length ∧
    (getZonesInPolygon lib poly resolution).count =
      (getZonesInPolygon lib poly resolution).zones.length := by
  refine ⟨?_, ?_, ?_, ?_⟩ <;>
    simp [getNeighbors, getZonesInArea, getZonesInRadius, getZonesInPolygon]

/-- A concrete library instance used to evaluate the theorems below on
closed inputs. -/
def constLib : H3Lib where
  latLngToCell _ _ _ := "center"
  cellToLatLng _ := (1, 2)
  cellToBoundary _ := [(0, 0), (0, 1), (1, 1)]
  gridDisk h _ := [h, "n1", "n2"]
  polygonToCells _ _ := ["p1", "p2"]
  cellToChildren _ _ := ["c1", "c2", "c3"]
  cellToParent _ _ := "up"
  getResolution _ := 9
  isValidCell _ := true

/-- Claim C4: for a hash whose resolution lies in `[0, 15]` (every valid
H3 cell), `getDetailedZoneInfo` returns no parent exactly at resolution 0
and otherwise the parent at `resolution - 1`; returns no children at
resolution 15 and otherwise the first 10 of the full child set at
`resolution + 1`; and `childrenCount` is the length of the untruncated
child set. -/
theorem getDetailedZoneInfo_hierarchy_spec (lib : H3Lib) (hash : String)
    (h0 : 0 ≤ lib.getResolution hash) (h15 : lib.getResolution hash ≤ 15) :
    ((getDetailedZoneInfo lib hash).parent = none ↔
      lib.getResolution hash = 0) ∧
    (lib.getResolution hash ≠ 0 →
      (getDetailedZoneInfo lib hash).parent =
        some (lib.cellToParent hash (lib.getResolution hash - 1))) ∧
    (lib.getResolution hash = 15 →
      (getDetailedZoneInfo lib hash).children = [] ∧
      (getDetailedZoneInfo lib hash).childrenCount = 0) ∧
    (lib.getResolution hash < 15 →
      (getDetailedZoneInfo lib hash).children =
        (lib.cellToChildren hash (lib.getResolution hash + 1)).take 10 ∧
      (getDetailedZoneInfo lib hash).childrenCount =
        (lib.cellToChildren hash (lib.getResolution hash + 1)).length) := by
  unfold getDetailedZoneInfo
  simp only []
  refine ⟨?_, ?_, ?_, ?_⟩
  · split_ifs with h
    · simp only [reduceCtorEq, false_iff]
      omega
    · simp only [true_iff]
      omega
  · intro hne
    split_ifs with h
    · rfl
    · omega
  · intro h15eq
    split_ifs with h
    · omega
    · simp
  · intro hlt
    split_ifs
    exact ⟨rfl, rfl⟩

/-- Witness for C4: evaluating the theorem at `constLib`, where every
hash has resolution 9, parent "up" and three children. -/
theorem getDetailedZoneInfo_hierarchy_spec_witness :
    (getDetailedZoneInfo constLib "89283082833ffff").parent = some "up" :=
  (getDetailedZoneInfo_hierarchy_spec constLib "89283082833ffff"
    (by decide) (by decide)).2.1 (by decide)

/-- Claim C5: `getNeighbors` returns the ring-disk unfiltered — when the
library ring-disk contains the queried hash (as the real one always
does), so does the neighbor list — while `getDetailedZoneInfo` filters
the queried hash out of its `neighbors` field. -/
theorem getNeighbors_includes_self_spec (lib : H3Lib) (hash : String)
    (k : ℤ) (hself : hash ∈ lib.gridDisk hash k) :
    (getNeighbors lib hash k).neighbors =
      (lib.gridDisk hash k).map (formatNeighborInfo lib) ∧
    formatNeighborInfo lib hash ∈ (getNeighbors lib hash k).neighbors ∧
    (getDetailedZoneInfo lib hash).neighbors =
      (lib.gridDisk hash 1).filter (fun h => h != hash) ∧
    hash ∉ (getDetailedZoneInfo lib hash).neighbors := by
  refine ⟨rfl, ?_, rfl, ?_⟩
  · show formatNeighborInfo lib hash ∈
      (lib.gridDisk hash k).map fun neighborHash => formatNeighborInfo lib neighborHash
    exact List.mem_map.mpr ⟨hash, hself, rfl⟩
  · show hash ∉ (lib.gridDisk hash 1).filter fun h => h != hash
    intro hmem
    have := List.of_mem_filter hmem
    simp at this

/-- Witness for C5: evaluating the theorem at `constLib`, whose ring-disk
lists the queried hash first. -/
theorem getNeighbors_includes_self_spec_witness :
    formatNeighborInfo constLib "abc" ∈ (getNeighbors constLib "abc" 1).neighbors :=
  (getNeighbors_includes_self_spec constLib "abc" 1 (by decide)).2.1

/-- Helper: the per-vertex loop body accepts exactly the two-element
arrays whose coordinates validate. -/
lemma checkVertex_valid_iff (c : JSCoord) :
    (checkVertex c).isValid = true ↔
      ∃ la ln, c = JSCoord.arr [la, ln] ∧
        (validateCoordinates la ln).isValid = true := by
  cases c with
  | nonArr => simp [checkVertex]
  | arr es =>
    match es with
    | [] => simp [checkVertex]
    | [a] => simp [checkVertex]
    | [a, b] =>
      constructor
      · intro h
        exact ⟨a, b, rfl, h⟩
      · rintro ⟨la, ln, heq, h⟩
        cases heq
        exact h
    | a :: b :: c2 :: rest => simp [checkVertex]

/-- Helper: the vertex loop succeeds exactly when every vertex passes. -/
lemma checkVertices_valid_iff (cs : List JSCoord) :
    (checkVertices cs).isValid = true ↔
      ∀ c ∈ cs, (checkVertex c).isValid = true := by
  induction cs with
  | nil => simp [checkVertices]
  | cons c rest ih =>
    show (if (checkVertex c).isValid then checkVertices rest else checkVertex c).isValid
        = true ↔ _
    by_cases h : (checkVertex c).isValid = true
    · simp [h, ih]
    · simp [h]

/-- Helper: the vertex loop short-circuits, returning the result of the
first failing vertex. -/
lemma checkVertices_first_fail (cs : List JSCoord) (i : ℕ) (hi : i < cs.length)
    (hok : ∀ j (hj : j < i), (checkVertex (cs.get ⟨j, hj.trans hi⟩)).isValid = true)
    (hbad : (checkVertex (cs.get ⟨i, hi⟩)).isValid = false) :
    checkVertices cs = checkVertex (cs.get ⟨i, hi⟩) := by
  induction cs generalizing i with
  | nil => exact absurd hi (Nat.not_lt_zero i)
  | cons c rest ih =>
    cases i with
    | zero =>
      have hc : (checkVertex c).isValid = false := hbad
      show (if (checkVertex c).isValid then checkVertices rest else checkVertex c) = _
      rw [hc]
      simp
    | succ n =>
      have hc : (checkVertex c).isValid = true := hok 0 (Nat.succ_pos n)
      have hn : n < rest.length := Nat.lt_of_succ_lt_succ hi
      show (if (checkVertex c).isValid then checkVertices rest else checkVertex c) = _
      rw [hc]
      simp only [if_true]
      exact ih n hn (fun j hj => hok (j + 1) (Nat.succ_lt_succ hj)) hbad

/-- Claim C6: `validatePolygon` accepts exactly the arrays of at least 3
two-element coordinate pairs whose coordinates all validate; it checks
vertices in order and short-circuits at the first failing vertex,
returning the failure of that vertex; the two-vertex polygon fails with
the size message and a polygon led by latitude 91 fails with the
coordinate-range message. -/
theorem validatePolygon_spec :
    (∀ p : JSPolyArg, (validatePolygon p).isValid = true ↔
      ∃ coords, p = JSPolyArg.arr coords ∧ 3 ≤ coords.length ∧
        ∀ c ∈ coords, ∃ la ln, c = JSCoord.arr [la, ln] ∧
          (validateCoordinates la ln).isValid = true) ∧
    (∀ (coords : List JSCoord) (i : ℕ) (hi : i < coords.length),
      3 ≤ coords.length →
      (∀ j (hj : j < i), (checkVertex (coords.get ⟨j, hj.trans hi⟩)).isValid = true) →
      (checkVertex (coords.get ⟨i, hi⟩)).isValid = false →
      validatePolygon (JSPolyArg.arr coords) = checkVertex (coords.get ⟨i, hi⟩)) ∧
    validatePolygon (JSPolyArg.arr
      [JSCoord.arr [JSNum.num 0, JSNum.num 0],
       JSCoord.arr [JSNum.num 1, JSNum.num 1]]) =
      { isValid := false, error := some polygonSizeErrorMsg } ∧
    validatePolygon (JSPolyArg.arr
      [JSCoord.arr [JSNum.num 91, JSNum.num 0],
       JSCoord.arr [JSNum.num 0, JSNum.num 0],
       JSCoord.arr [JSNum.num 0, JSNum.num 1]]) =
      { isValid := false, error := some coordinatesErrorMsg } := by
  refine ⟨?_, ?_, by decide, by decide⟩
  · intro p
    cases p with
    | nonArr =>
      constructor
      · intro h
        exact absurd h (by decide)
      · rintro ⟨coords, hc, -⟩
        exact absurd hc (by simp)
    | arr coords =>
      show (if coords.length < 3 then _ else checkVertices coords).isValid = true ↔ _
      by_cases hlen : coords.length < 3
      · rw [if_pos hlen]
        constructor
        · intro h
          exact absurd h (by decide)
        · rintro ⟨coords2, hc, hlen2, -⟩
          cases hc
          omega
      · rw [if_neg hlen]
        rw [checkVertices_valid_iff]
        constructor
        · intro h
          refine ⟨coords, rfl, by omega, fun c hc => ?_⟩
          exact (checkVertex_valid_iff c).mp (h c hc)
        · rintro ⟨coords2, hc, -, hall⟩
          cases hc
          intro c hc
          exact (checkVertex_valid_iff c).mpr (hall c hc)
  · intro coords i hi hlen hok hbad
    show (if coords.length < 3 then _ else checkVertices coords) = _
    rw [if_neg (by omega)]
    exact checkVertices_first_fail coords i hi hok hbad

/-- Witness for C6: the short-circuit clause applied to a concrete
polygon whose second vertex is not an array — the first vertex passes,
and the returned error is the shape message of the second vertex. -/
theorem validatePolygon_spec_witness :
    validatePolygon (JSPolyArg.arr
      [JSCoord.arr [JSNum.num 0, JSNum.num 0], JSCoord.nonArr,
       JSCoord.arr [JSNum.num 2, JSNum.num 2]]) =
      { isValid := false, error := some coordShapeErrorMsg } := by
  have h := validatePolygon_spec.2.1
    [JSCoord.arr [JSNum.num 0, JSNum.num 0], JSCoord.nonArr,
     JSCoord.arr [JSNum.num 2, JSNum.num 2]]
    1 (by decide) (by decide)
    (fun j hj => by
      have hj0 : j = 0 := by omega
      subst hj0
      rfl)
    (by rfl)
  exact h.trans (by rfl)

/-- Helper: the boolean rejection condition of `validateResolution` as a
proposition. -/
lemma validateResolution_cond_iff (q : ℚ) :
    (decide (q < 0) || decide (q > 15) || !(q.den == 1)) = true ↔
      (q < 0 ∨ 15 < q ∨ q.den ≠ 1) := by
  simp [gt_iff_lt, or_assoc]

/-- Helper: on a genuine rational, `validateResolution` succeeds exactly
when the value is in range and has denominator 1. -/
lemma validateResolution_num_iff (q : ℚ) :
    (validateResolution (JSNum.num q)).isValid = true ↔
      0 ≤ q ∧ q ≤ 15 ∧ q.den = 1 := by
  show (if (decide (q < 0) || decide (q > 15) || !(q.den == 1)) = true then _
      else _ : ValidationResult).isValid = true ↔ _
  rcases em (q < 0 ∨ 15 < q ∨ q.den ≠ 1) with hc | hc
  · rw [if_pos ((validateResolution_cond_iff q).mpr hc)]
    constructor
    · intro habs
      exact absurd habs (by decide)
    · rintro ⟨hq0, hq15, hden⟩
      exfalso
      rcases hc with h | h | h
      · linarith
      · linarith
      · exact h hden
  · rw [if_neg (fun hb => hc ((validateResolution_cond_iff q).mp hb))]
    push_neg at hc
    obtain ⟨h0, h15, hden⟩ := hc
    constructor
    · intro _
      exact ⟨h0, h15, hden⟩
    · intro _
      rfl

/-- Claim C8: `validateResolution` accepts exactly the integers in
`[0, 15]`; in particular -1, 16 and 7.5 are rejected while 0 and 15 are
accepted. -/
theorem validateResolution_spec :
    (∀ r : JSNum, (validateResolution r).isValid = true ↔
      ∃ n : ℤ, r = JSNum.num (n : ℚ) ∧ 0 ≤ n ∧ n ≤ 15) ∧
    (validateResolution (JSNum.num (-1))).isValid = false ∧
    (validateResolution (JSNum.num 16)).isValid = false ∧
    (validateResolution (JSNum.num (15 / 2))).isValid = false ∧
    (validateResolution (JSNum.num 0)).isValid = true ∧
    (validateResolution (JSNum.num 15)).isValid = true := by
  have h75 : (validateResolution (JSNum.num (15 / 2))).isValid = false := by
    rw [← Bool.not_eq_true, validateResolution_num_iff]
    rintro ⟨-, -, hden⟩
    have hq : (((15 / 2 : ℚ).num : ℚ)) = 15 / 2 :=
      Rat.coe_int_num_of_den_eq_one hden
    have h2 : (2 : ℚ) * (((15 / 2 : ℚ).num : ℚ)) = 15 := by
      rw [hq]
      norm_num
    have h3 : (2 * (15 / 2 : ℚ).num : ℤ) = 15 := by exact_mod_cast h2
    omega
  refine ⟨?_, by decide, by decide, h75, by decide, by decide⟩
  intro r
  cases r with
  | nan =>
    constructor
    · intro h
      exact absurd h (by decide)
    · rintro ⟨n, hn, -⟩
      exact absurd hn (fun habs => JSNum.noConfusion habs)
  | num q =>
    rw [validateResolution_num_iff]
    constructor
    · rintro ⟨hq0, hq15, hden⟩
      have hq : (q.num : ℚ) = q := Rat.coe_int_num_of_den_eq_one hden
      refine ⟨q.num, by rw [hq], Rat.num_nonneg.mpr hq0, ?_⟩
      rw [← hq] at hq15
      exact_mod_cast hq15
    · rintro ⟨n, hn, hn0, hn15⟩
      injection hn with hq
      subst hq
      refine ⟨by exact_mod_cast hn0, by exact_mod_cast hn15, Rat.den_intCast n⟩

/-- A validation outcome as the specification demands it: either valid
with no error, or invalid with exactly one human-readable reason. -/
def wellFormedResult (r : ValidationResult) : Prop :=
  (r.isValid = true ∧ r.error = none) ∨
  (r.isValid = false ∧ ∃ msg : String, r.error = some msg)

/-- Helper: the per-vertex loop body always yields a well-formed result. -/
lemma checkVertex_wellFormed (c : JSCoord) : wellFormedResult (checkVertex c) := by
  cases c with
  | nonArr => exact Or.inr ⟨rfl, coordShapeErrorMsg, rfl⟩
  | arr es =>
    match es with
    | [] => exact Or.inr ⟨rfl, coordShapeErrorMsg, rfl⟩
    | [a] => exact Or.inr ⟨rfl, coordShapeErrorMsg, rfl⟩
    | [a, b] =>
      show wellFormedResult (validateCoordinates a b)
      unfold validateCoordinates
      split_ifs
      · exact Or.inr ⟨rfl, coordinatesErrorMsg, rfl⟩
      · exact Or.inl ⟨rfl, rfl⟩
    | a :: b :: c2 :: rest => exact Or.inr ⟨rfl, coordShapeErrorMsg, rfl⟩

/-- Helper: the vertex loop always yields a well-formed result. -/
lemma checkVertices_wellFormed (cs : List JSCoord) :
    wellFormedResult (checkVertices cs) := by
  induction cs with
  | nil => exact Or.inl ⟨rfl, rfl⟩
  | cons c rest ih =>
    show wellFormedResult
      (if (checkVertex c).isValid then checkVertices rest else checkVertex c)
    by_cases h : (checkVertex c).isValid = true
    · rw [h]
      simpa using ih
    · rw [Bool.not_eq_true] at h
      rw [h]
      simpa using checkVertex_wellFormed c

/-- Claim C9: every validator is a total pure Lean function (hence
terminates and cannot throw) and, on every input — `NaN` coercions,
non-arrays and wrong-arity vertices included — returns a result that is
either valid with no error or invalid with a single reason string. -/
theorem validators_total_spec (lib : H3Lib) (lat lng r k : JSNum)
    (hash : String) (p : JSPolyArg) :
    wellFormedResult (validateCoordinates lat lng) ∧
    wellFormedResult (validateResolution r) ∧
    wellFormedResult (validateCellHash lib hash) ∧
    wellFormedResult (validateKValue k) ∧
    wellFormedResult (validatePolygon p) := by
  refine ⟨?_, ?_, ?_, ?_, ?_⟩
  · unfold validateCoordinates
    split_ifs
    · exact Or.inr ⟨rfl, coordinatesErrorMsg, rfl⟩
    · exact Or.inl ⟨rfl, rfl⟩
  · unfold validateResolution
    split_ifs
    · exact Or.inr ⟨rfl, _, rfl⟩
    · exact Or.inl ⟨rfl, rfl⟩
  · unfold validateCellHash
    split_ifs
    · exact Or.inr ⟨rfl, _, rfl⟩
    · exact Or.inl ⟨rfl, rfl⟩
  · unfold validateKValue
    split_ifs
    · exact Or.inr ⟨rfl, _, rfl⟩
    · exact Or.inl ⟨rfl, rfl⟩
  · cases p with
    | nonArr => exact Or.inr ⟨rfl, polygonSizeErrorMsg, rfl⟩
    | arr coords =>
      show wellFormedResult
        (if coords.length < 3 then _ else checkVertices coords)
      split_ifs
      · exact Or.inr ⟨rfl, polygonSizeErrorMsg, rfl⟩
      · exact checkVertices_wellFormed coords
